import Mathlib

/-!
Verification of the `sleep_absolute` package: a shallow embedding of its
deadline-conversion arithmetic, its four platform backends' setup and
teardown logic, and its platform selector, with theorems settling the
specification's claims about them.

Timestamps (the value of Python's `datetime.timestamp()` and the inputs of
the converters) are modelled as rationals with exact arithmetic; Python's
`int()` truncation, `math.modf` and banker's-rounding `round()` are given
explicit definitions below.
-/

namespace SleepAbsolute

/-- Python `int(x)`: truncation toward zero. -/
def pyTrunc (q : ℚ) : ℤ := if 0 ≤ q then ⌊q⌋ else ⌈q⌉

/-- Python `round(x)` with a single argument: round half to even. -/
def pyRound (q : ℚ) : ℤ :=
  if q - ⌊q⌋ < 1/2 then ⌊q⌋
  else if 1/2 < q - ⌊q⌋ then ⌊q⌋ + 1
  else if ⌊q⌋ % 2 = 0 then ⌊q⌋ else ⌊q⌋ + 1

/-- `math.modf(x)`: the fractional part, with the sign of `x`. -/
def modfFrac (q : ℚ) : ℚ := q - (pyTrunc q : ℚ)

/-- `math.modf(x)`: the integral part, as a (mathematically integral) value. -/
def modfInt (q : ℚ) : ℚ := (pyTrunc q : ℚ)

/-- The seconds+nanoseconds splitting shared verbatim by
`_linux._program_timerfd`, `_timer_create._timestamp_to_spec` and
`_darwin._program_timer`:

    fractional, integral = math.modf(timestamp)
    nanoseconds = int(round(fractional * 1_000_000_000))
    seconds = int(integral)
    if nanoseconds >= 1_000_000_000:
        seconds += 1
        nanoseconds -= 1_000_000_000

Returns `(seconds, nanoseconds)`. -/
def timestampToSpec (t : ℚ) : ℤ × ℤ :=
  let fractional := modfFrac t
  let integral := modfInt t
  let nanoseconds := pyRound (fractional * 1000000000)
  let seconds := pyTrunc integral
  if 1000000000 ≤ nanoseconds then (seconds + 1, nanoseconds - 1000000000)
  else (seconds, nanoseconds)

/-- `_windows._WINDOWS_TICK`. -/
def WINDOWS_TICK : ℤ := 10000000

/-- `_windows._EPOCH_DIFFERENCE_SECONDS`. -/
def EPOCH_DIFFERENCE_SECONDS : ℤ := 11644473600

/-- `_windows._unix_to_windows_ticks`, embedded exactly as written.  Note
that the source binds `whole, frac = math.modf(timestamp)`, while `modf`
returns the pair (fractional part, integral part): so the source's `whole`
is the fractional part and its `frac` is the integral part.

    whole, frac = math.modf(timestamp)
    fractional_ticks = int(round(frac * _WINDOWS_TICK))
    whole_ticks = int(whole) * _WINDOWS_TICK
    if fractional_ticks >= _WINDOWS_TICK:
        whole_ticks += _WINDOWS_TICK
        fractional_ticks -= _WINDOWS_TICK
    return whole_ticks + fractional_ticks + _EPOCH_DIFFERENCE_SECONDS * _WINDOWS_TICK
-/
def unixToWindowsTicks (timestamp : ℚ) : ℤ :=
  let whole := modfFrac timestamp
  let frac := modfInt timestamp
  let fractionalTicks := pyRound (frac * (WINDOWS_TICK : ℚ))
  let wholeTicks := pyTrunc whole * WINDOWS_TICK
  let carried :=
    if WINDOWS_TICK ≤ fractionalTicks then (wholeTicks + WINDOWS_TICK, fractionalTicks - WINDOWS_TICK)
    else (wholeTicks, fractionalTicks)
  carried.1 + carried.2 + EPOCH_DIFFERENCE_SECONDS * WINDOWS_TICK

/-- Terminal states of the `asyncio.Future` outcome slot. -/
inductive FutureState
  | pending
  | resolved
  | cancelled
deriving DecidableEq, Repr

/-! ### Linux (timerfd) backend: the armed wait's teardown state machine

State observed on the scheduler thread after `_linux.wait_until` has armed
the descriptor: the outcome future, the `closed` single-use guard, the
count of `os.close(fd)` calls performed, the reader registration, and the
number of future-done callbacks that `asyncio` has scheduled but not yet
run (`set_result`/`cancel` schedule `_cleanup_callback` via `call_soon`).
-/

structure LState where
  future : FutureState
  closed : Bool
  fdCloseCount : ℕ
  resolveCount : ℕ
  readerRegistered : Bool
  pendingDoneCbs : ℕ
deriving DecidableEq, Repr

/-- `_linux.wait_until`'s nested `_close_fd`: the single-use guard. -/
def lCloseFd (s : LState) : LState :=
  if s.closed then s
  else { s with closed := true, readerRegistered := false, fdCloseCount := s.fdCloseCount + 1 }

/-- `_linux.wait_until`'s nested `_on_ready`: resolve if the future is not
done, then close. -/
def lOnReady (s : LState) : LState :=
  let s1 :=
    if s.future = FutureState.pending then
      { s with future := FutureState.resolved, resolveCount := s.resolveCount + 1,
               pendingDoneCbs := s.pendingDoneCbs + 1 }
    else s
  lCloseFd s1

/-- Scheduler-thread events that can reach an armed Linux wait: the
descriptor becomes readable (`_on_ready`), a scheduled future-done
callback runs (`_cleanup_callback`), or the caller cancels the future. -/
inductive LEvent
  | ready
  | runDoneCb
  | cancelFuture
deriving DecidableEq, Repr

def lStep (s : LState) : LEvent → LState
  | LEvent.ready => lOnReady s
  | LEvent.runDoneCb =>
      if 0 < s.pendingDoneCbs then lCloseFd { s with pendingDoneCbs := s.pendingDoneCbs - 1 }
      else s
  | LEvent.cancelFuture =>
      if s.future = FutureState.pending then
        { s with future := FutureState.cancelled, pendingDoneCbs := s.pendingDoneCbs + 1 }
      else s

def lRun (s : LState) (events : List LEvent) : LState := events.foldl lStep s

/-- The state just after `_linux.wait_until` returns its future. -/
def lArmed : LState :=
  { future := FutureState.pending, closed := false, fdCloseCount := 0, resolveCount := 0,
    readerRegistered := true, pendingDoneCbs := 0 }

/-! ### POSIX `timer_create` backend: `_TimerContext` state machine -/

structure TCState where
  closed : Bool
  timerIdSet : Bool
  inRegistry : Bool
  createCount : ℕ
  deleteCount : ℕ
  popCount : ℕ
  future : FutureState
  pendingResolves : ℕ
  pendingDoneCbs : ℕ
deriving DecidableEq, Repr

/-- The observable actions of `_TimerContext.cleanup`, in source order. -/
inductive TCAction
  | setClosed
  | timerDelete
  | registryPop
deriving DecidableEq, Repr

/-- `_TimerContext.cleanup`: guard on `_closed`, set it, delete the native
timer when one was created, then drop the registry entry.  The second
component records the actions performed, in the order the source performs
them. -/
def tcCleanup (s : TCState) : TCState × List TCAction :=
  if s.closed then (s, [])
  else
    ({ s with closed := true,
              deleteCount := s.deleteCount + (if s.timerIdSet then 1 else 0),
              popCount := s.popCount + (if s.inRegistry then 1 else 0),
              inRegistry := false,
              timerIdSet := false },
     TCAction.setClosed ::
       ((if s.timerIdSet then [TCAction.timerDelete] else []) ++ [TCAction.registryPop]))

/-- `_TimerContext._resolve` (scheduler thread): no-op when closed, else
resolve the future if still pending and clean up. -/
def tcResolve (s : TCState) : TCState :=
  if s.closed then s
  else
    let s1 :=
      if s.future = FutureState.pending then
        { s with future := FutureState.resolved, pendingDoneCbs := s.pendingDoneCbs + 1 }
      else s
    (tcCleanup s1).1

/-- `_TimerContext._on_timer` (notification thread): no-op when closed,
else post `_resolve` to the scheduler thread. -/
def tcOnTimer (s : TCState) : TCState :=
  if s.closed then s else { s with pendingResolves := s.pendingResolves + 1 }

/-- `_timer_callback` acting on this context: the token is found only while
the context is registered. -/
def tcTimerFires (s : TCState) : TCState :=
  if s.inRegistry then tcOnTimer s else s

inductive TCEvent
  | timerFires
  | runResolve
  | cancelFuture
  | runDoneCb
deriving DecidableEq, Repr

def tcStep (s : TCState) : TCEvent → TCState
  | TCEvent.timerFires => tcTimerFires s
  | TCEvent.runResolve =>
      if 0 < s.pendingResolves then tcResolve { s with pendingResolves := s.pendingResolves - 1 }
      else s
  | TCEvent.cancelFuture =>
      if s.future = FutureState.pending then
        { s with future := FutureState.cancelled, pendingDoneCbs := s.pendingDoneCbs + 1 }
      else s
  | TCEvent.runDoneCb =>
      if 0 < s.pendingDoneCbs then (tcCleanup { s with pendingDoneCbs := s.pendingDoneCbs - 1 }).1
      else s

def tcRun (s : TCState) (events : List TCEvent) : TCState := events.foldl tcStep s

/-- The `_TimerContext` as `_TimerContext.__init__` leaves it: registered,
no native timer yet. -/
def tcNewContext : TCState :=
  { closed := false, timerIdSet := false, inRegistry := true, createCount := 0, deleteCount := 0,
    popCount := 0, future := FutureState.pending, pendingResolves := 0, pendingDoneCbs := 0 }

/-- The context state of a successfully armed `_timer_create` wait. -/
def tcArmed : TCState :=
  { closed := false, timerIdSet := true, inRegistry := true, createCount := 1, deleteCount := 0,
    popCount := 0, future := FutureState.pending, pendingResolves := 0, pendingDoneCbs := 0 }

/-- The registry `_contexts`: token-keyed correlation contexts. -/
def tcLookup (reg : List (ℕ × TCState)) (key : ℕ) : Option TCState := reg.lookup key

/-- `_timer_callback`: look the token up in `_contexts`; a missing token is
swallowed (the registry, hence every context in it, is left untouched). -/
def timerCallbackDispatch (reg : List (ℕ × TCState)) (key : ℕ) : List (ℕ × TCState) :=
  match tcLookup reg key with
  | none => reg
  | some _ => reg.map (fun p => if p.1 = key then (p.1, tcOnTimer p.2) else p)

/-! ### Darwin (Grand Central Dispatch) backend -/

/-- The native dispatch calls a Darwin-backend operation can make. -/
inductive DNative
  | sourceCancel
  | releaseCall
deriving DecidableEq, Repr

structure DState where
  timerPresent : Bool
  cancelled : Bool
  releaseCount : ℕ
  pyRefsCleared : Bool
  future : FutureState
  pendingSetResults : ℕ
deriving DecidableEq, Repr

/-- `_darwin._TimerContext.cancel_timer`: request cancellation of the
source at most once; no release here. -/
def dCancelTimer (s : DState) : DState × List DNative :=
  if s.timerPresent = false then (s, [])
  else if s.cancelled then (s, [])
  else ({ s with cancelled := true }, [DNative.sourceCancel])

/-- `_darwin._TimerContext.release`: called only from the cancel handler;
performs `dispatch_release` and drops the context's self-references. -/
def dRelease (s : DState) : DState × List DNative :=
  if s.timerPresent then
    ({ s with releaseCount := s.releaseCount + 1, timerPresent := false, pyRefsCleared := true },
     [DNative.releaseCall])
  else ({ s with pyRefsCleared := true }, [])

/-- `_darwin._event_handler` (worker thread): with a null context pointer
it returns immediately; otherwise it posts the resolution (unless the
future is already done) and requests cancellation. -/
def dEventHandler (ctxValid : Bool) (s : DState) : DState × List DNative :=
  if ctxValid = false then (s, [])
  else if s.future ≠ FutureState.pending then dCancelTimer s
  else dCancelTimer { s with pendingSetResults := s.pendingSetResults + 1 }

/-- `_darwin._cancel_handler` (worker thread, invoked by the runtime after
no further event callbacks can fire): the only place that releases. -/
def dCancelHandler (ctxValid : Bool) (s : DState) : DState × List DNative :=
  if ctxValid = false then (s, []) else dRelease s

/-- `_darwin.wait_until`'s `_cleanup` future-done callback: it only
requests cancellation. -/
def dCleanupCb (s : DState) : DState × List DNative := dCancelTimer s

/-- The context state of a successfully armed Darwin wait. -/
def darwinArmed : DState :=
  { timerPresent := true, cancelled := false, releaseCount := 0, pyRefsCleared := false,
    future := FutureState.pending, pendingSetResults := 0 }

/-! ### Setup paths of `wait_until` and the platform selector -/

/-- The errors the public surface can raise. -/
inductive PubError
  | notImplemented
  | runtimeErr
  | osErr
deriving DecidableEq, Repr

inductive CallResult
  | ok
  | err (e : PubError)
deriving DecidableEq, Repr

/-- A `datetime.datetime` argument: whether it carries a `tzinfo`, and the
value its `timestamp()` method yields. -/
structure PyDatetime where
  tzAware : Bool
  ts : ℚ
deriving DecidableEq

/-- Environment of one `wait_until` call: which loop capabilities exist and
which native setup calls fail. -/
structure EnvCfg where
  hasAddReader : Bool
  hasRemoveReader : Bool
  createFails : Bool
  armFails : Bool
  addReaderFails : Bool
  hasProactor : Bool
  winCreateFails : Bool
  winSetFails : Bool
  tcCreateFails : Bool
  tcSettimeFails : Bool
deriving DecidableEq, Repr

structure LinuxOutcome where
  result : CallResult
  fdsCreated : ℕ
  fdsClosed : ℕ
  programmed : Option (ℤ × ℤ)
deriving DecidableEq

/-- `_linux.wait_until`: reader-capability check, `timerfd_create`,
`_program_timerfd` (closing the fd on failure), `add_reader` (running
`_close_fd` on failure), then the future is handed back. -/
def linuxWaitUntil (dt : PyDatetime) (cfg : EnvCfg) : LinuxOutcome :=
  if cfg.hasAddReader = false ∨ cfg.hasRemoveReader = false then
    { result := CallResult.err PubError.runtimeErr, fdsCreated := 0, fdsClosed := 0,
      programmed := none }
  else if cfg.createFails then
    { result := CallResult.err PubError.osErr, fdsCreated := 0, fdsClosed := 0, programmed := none }
  else if cfg.armFails then
    { result := CallResult.err PubError.osErr, fdsCreated := 1, fdsClosed := 1, programmed := none }
  else if cfg.addReaderFails then
    { result := CallResult.err PubError.osErr, fdsCreated := 1, fdsClosed := 1,
      programmed := some (timestampToSpec dt.ts) }
  else
    { result := CallResult.ok, fdsCreated := 1, fdsClosed := 0,
      programmed := some (timestampToSpec dt.ts) }

structure WinOutcome where
  result : CallResult
  handlesCreated : ℕ
  handlesClosed : ℕ
  dueTicks : Option ℤ
deriving DecidableEq

/-- `_windows.wait_until`: proactor check, due-time conversion,
`CreateWaitableTimerW`, `SetWaitableTimer` (closing the handle on
failure), then `wait_for_handle`'s future is handed back. -/
def windowsWaitUntil (dt : PyDatetime) (cfg : EnvCfg) : WinOutcome :=
  if cfg.hasProactor = false then
    { result := CallResult.err PubError.runtimeErr, handlesCreated := 0, handlesClosed := 0,
      dueTicks := none }
  else if cfg.winCreateFails then
    { result := CallResult.err PubError.osErr, handlesCreated := 0, handlesClosed := 0,
      dueTicks := some (unixToWindowsTicks dt.ts) }
  else if cfg.winSetFails then
    { result := CallResult.err PubError.osErr, handlesCreated := 1, handlesClosed := 1,
      dueTicks := some (unixToWindowsTicks dt.ts) }
  else
    { result := CallResult.ok, handlesCreated := 1, handlesClosed := 0,
      dueTicks := some (unixToWindowsTicks dt.ts) }

/-- `_TimerContext.start`: `timer_create` then `timer_settime`, calling
`self.cleanup()` before re-raising a `timer_settime` failure.  An error
value carries the context state at the moment the exception propagates. -/
def tcStart (cfg : EnvCfg) (s : TCState) : Except TCState TCState :=
  if cfg.tcCreateFails then Except.error s
  else
    let s1 := { s with timerIdSet := true, createCount := s.createCount + 1 }
    if cfg.tcSettimeFails then Except.error (tcCleanup s1).1
    else Except.ok s1

/-- `_timer_create.wait_until`'s setup path: build the context (which
registers itself), `start` it, and on failure run `context.cleanup()`
before re-raising. -/
def tcWaitUntil (cfg : EnvCfg) : Except TCState TCState :=
  match tcStart cfg tcNewContext with
  | Except.error s => Except.error (tcCleanup s).1
  | Except.ok s => Except.ok s

/-- The backends `sleep_absolute/__init__.py` can select. -/
inductive Backend
  | linuxBackend
  | windowsBackend
deriving DecidableEq, Repr

/-- `str.startswith`: `strBegins pre s` holds when `s` begins with `pre`.
`sys.platform` values are modelled as their character lists. -/
def strBegins : List Char → List Char → Bool
  | [], _ => true
  | _ :: _, [] => false
  | c :: cs, d :: ds => c = d && strBegins cs ds

/-- The characters of `"linux"`. -/
def linuxChars : List Char := ['l', 'i', 'n', 'u', 'x']

/-- The characters of `"win32"`. -/
def win32Chars : List Char := ['w', 'i', 'n', '3', '2']

/-- The characters of `"cygwin"`. -/
def cygwinChars : List Char := ['c', 'y', 'g', 'w', 'i', 'n']

/-- The characters of `"darwin"`. -/
def darwinChars : List Char := ['d', 'a', 'r', 'w', 'i', 'n']

/-- The import-time platform selector of `sleep_absolute/__init__.py`:
`sys.platform.startswith("linux")` picks `_linux`,
`sys.platform.startswith(("win32", "cygwin"))` picks `_windows`, anything
else leaves `_impl = None`. -/
def selectImpl (platform : List Char) : Option Backend :=
  if strBegins linuxChars platform then some Backend.linuxBackend
  else if strBegins win32Chars platform || strBegins cygwinChars platform then
    some Backend.windowsBackend
  else none

/-- Which platforms have a backend implementation present in the
repository: `_linux.py` (timerfd; Linux), `_windows.py` (waitable timers;
win32/cygwin), `_timer_create.py` (POSIX timers; Linux and other POSIX
systems), and `_darwin.py` (Grand Central Dispatch; macOS). -/
def backendAvailable (platform : List Char) : Bool :=
  strBegins linuxChars platform || strBegins win32Chars platform ||
    strBegins cygwinChars platform || strBegins darwinChars platform

/-- The public `sleep_absolute.wait_until`: raise `NotImplementedError`
when no implementation was selected, else delegate. -/
def publicWaitUntil (platform : List Char) (dt : PyDatetime) (cfg : EnvCfg) : CallResult :=
  match selectImpl platform with
  | none => CallResult.err PubError.notImplemented
  | some Backend.linuxBackend => (linuxWaitUntil dt cfg).result
  | some Backend.windowsBackend => (windowsWaitUntil dt cfg).result

/-- An environment in which every capability is present and no native call
fails. -/
def goodCfg : EnvCfg :=
  { hasAddReader := true, hasRemoveReader := true, createFails := false, armFails := false,
    addReaderFails := false, hasProactor := true, winCreateFails := false, winSetFails := false,
    tcCreateFails := false, tcSettimeFails := false }

/-- An environment in which arming the native timer fails in every
backend. -/
def armFailCfg : EnvCfg :=
  { goodCfg with
      armFails := true
      winSetFails := true
      tcSettimeFails := true }

/-- An environment whose loop lacks `add_reader`. -/
def noReaderCfg : EnvCfg :=
  { goodCfg with hasAddReader := false }

/-- The `_TimerContext` state after a successful `timer_create` inside
`start`, before `timer_settime`. -/
def tcStartedContext : TCState :=
  { tcNewContext with
      timerIdSet := true
      createCount := tcNewContext.createCount + 1 }

/-- Invariant of the armed Linux wait: the close count mirrors the guard,
the future is resolved at most once, the guard only closes after the
future is done, and a done future keeps a pending cleanup callback until
the descriptor is closed. -/
def LInv (s : LState) : Prop :=
  s.fdCloseCount = (if s.closed then 1 else 0) ∧
  s.resolveCount = (if s.future = FutureState.resolved then 1 else 0) ∧
  (s.closed = true → s.future ≠ FutureState.pending) ∧
  (s.future = FutureState.pending → s.pendingDoneCbs = 0) ∧
  (s.future ≠ FutureState.pending → 0 < s.pendingDoneCbs ∨ s.closed = true)

/-- Invariant of the armed `_TimerContext`: the `_closed` flag is the
single-transition gate for both `timer_delete` and the registry pop. -/
def TCInv (s : TCState) : Prop :=
  s.createCount = 1 ∧
  (s.closed = false → s.timerIdSet = true ∧ s.inRegistry = true ∧
    s.deleteCount = 0 ∧ s.popCount = 0) ∧
  (s.closed = true → s.timerIdSet = false ∧ s.inRegistry = false ∧
    s.deleteCount = 1 ∧ s.popCount = 1)

end SleepAbsolute

namespace SleepAbsolute

lemma pyTrunc_of_nonneg {t : ℚ} (h : 0 ≤ t) : pyTrunc t = ⌊t⌋ := if_pos h

lemma pyTrunc_intCast (n : ℤ) : pyTrunc (n : ℚ) = n := by
  unfold pyTrunc
  split_ifs with h
  · exact Int.floor_intCast n
  · exact Int.ceil_intCast n

lemma pyTrunc_eq_zero {q : ℚ} (h1 : -1 < q) (h2 : q < 1) : pyTrunc q = 0 := by
  unfold pyTrunc
  split_ifs with h
  · rw [Int.floor_eq_zero_iff]
    exact ⟨h, h2⟩
  · push_neg at h
    rw [Int.ceil_eq_zero_iff]
    constructor
    · linarith
    · linarith

lemma floor_le_pyRound (q : ℚ) : ⌊q⌋ ≤ pyRound q := by
  unfold pyRound
  split_ifs <;> omega

lemma pyRound_le_floor_add_one (q : ℚ) : pyRound q ≤ ⌊q⌋ + 1 := by
  unfold pyRound
  split_ifs <;> omega

lemma pyRound_nonneg {q : ℚ} (h : 0 ≤ q) : 0 ≤ pyRound q :=
  le_trans (Int.floor_nonneg.mpr h) (floor_le_pyRound q)

lemma pyRound_le_of_lt {q : ℚ} {n : ℤ} (h : q < (n : ℚ)) : pyRound q ≤ n := by
  have hf : ⌊q⌋ < n := Int.floor_lt.mpr h
  have := pyRound_le_floor_add_one q
  omega

lemma pyRound_intCast (n : ℤ) : pyRound ((n : ℚ)) = n := by
  unfold pyRound
  rw [Int.floor_intCast]
  have h : (n : ℚ) - (n : ℚ) = 0 := by ring
  rw [h]
  norm_num

lemma pyRound_int_add_of_even {m : ℤ} (q : ℚ) (hm : m % 2 = 0) :
    pyRound ((m : ℚ) + q) = m + pyRound q := by
  unfold pyRound
  rw [Int.floor_int_add]
  have hfr : (m : ℚ) + q - ((m + ⌊q⌋ : ℤ) : ℚ) = q - (⌊q⌋ : ℚ) := by
    push_cast
    ring
  rw [hfr]
  split_ifs <;> omega

/-- Key evaluation: the converter at a nonnegative timestamp. -/
lemma timestampToSpec_of_nonneg {t : ℚ} (ht : 0 ≤ t) :
    timestampToSpec t =
      (if 1000000000 ≤ pyRound ((t - (⌊t⌋ : ℚ)) * 1000000000)
       then (⌊t⌋ + 1, pyRound ((t - (⌊t⌋ : ℚ)) * 1000000000) - 1000000000)
       else (⌊t⌋, pyRound ((t - (⌊t⌋ : ℚ)) * 1000000000))) := by
  simp only [timestampToSpec, modfFrac, modfInt, pyTrunc_of_nonneg ht, pyTrunc_intCast]

lemma modfFrac_bounds (t : ℚ) : -1 < modfFrac t ∧ modfFrac t < 1 := by
  unfold modfFrac pyTrunc
  split_ifs with h
  · have h1 := Int.floor_le t
    have h2 := Int.lt_floor_add_one t
    constructor <;> linarith
  · have h1 := Int.le_ceil t
    have h2 := Int.ceil_lt_add_one t
    constructor <;> linarith

/-- What `_unix_to_windows_ticks` actually computes: because the source binds
`modf`'s return pair in swapped order, the result is the truncated whole
seconds times the tick frequency plus the epoch offset — the fractional
second contributes nothing. -/
lemma unixToWindowsTicks_eq (t : ℚ) :
    unixToWindowsTicks t = pyTrunc t * WINDOWS_TICK + EPOCH_DIFFERENCE_SECONDS * WINDOWS_TICK := by
  have hb := modfFrac_bounds t
  have h0 : pyTrunc (modfFrac t) = 0 := pyTrunc_eq_zero hb.1 hb.2
  have hcast : (modfInt t) * ((WINDOWS_TICK : ℤ) : ℚ) = ((pyTrunc t * WINDOWS_TICK : ℤ) : ℚ) := by
    unfold modfInt
    push_cast
    ring
  simp only [unixToWindowsTicks]
  rw [h0, hcast, pyRound_intCast]
  split_ifs <;> ring

end SleepAbsolute

namespace SleepAbsolute

/-- C1 counterexample: at the pre-epoch timestamp `-1/2` (half a second
before the Unix epoch) the shared converter returns a negative nanoseconds
field, `(0, -500000000)`, so the claimed range `[0, 1e9)` fails. -/
theorem timestampToSpec_neg_nanoseconds :
    timestampToSpec (-1/2) = (0, -500000000) ∧ (timestampToSpec (-1/2)).2 < 0 := by
  have htr : pyTrunc (-1/2 : ℚ) = 0 := pyTrunc_eq_zero (by norm_num) (by norm_num)
  have hr : pyRound (((-1/2 : ℚ) - ((0 : ℤ) : ℚ)) * 1000000000) = -500000000 := by
    have h : ((-1/2 : ℚ) - ((0 : ℤ) : ℚ)) * 1000000000 = ((-500000000 : ℤ) : ℚ) := by
      norm_num
    rw [h, pyRound_intCast]
  have hmain : timestampToSpec (-1/2) = (0, -500000000) := by
    simp only [timestampToSpec, modfFrac, modfInt, htr, pyTrunc_intCast]
    rw [hr]
    norm_num
  exact ⟨hmain, by rw [hmain]; norm_num⟩

/-- C1 (amended): for every nonnegative timestamp the converter returns a
pair with nanoseconds in `[0, 1e9)`, and the pair represents exactly the
half-even rounding of the timestamp to nanoseconds: the fractional part is
rounded and one second is carried when the rounding reaches `1e9`. -/
theorem timestampToSpec_range (t : ℚ) (ht : 0 ≤ t) :
    0 ≤ (timestampToSpec t).2 ∧ (timestampToSpec t).2 < 1000000000 ∧
    (timestampToSpec t).1 * 1000000000 + (timestampToSpec t).2 = pyRound (t * 1000000000) := by
  rw [timestampToSpec_of_nonneg ht]
  have hf0 : (0 : ℚ) ≤ t - (⌊t⌋ : ℚ) := sub_nonneg.mpr (Int.floor_le t)
  have hf1 : t - (⌊t⌋ : ℚ) < 1 := by
    have := Int.lt_floor_add_one t
    linarith
  have h0 : 0 ≤ pyRound ((t - (⌊t⌋ : ℚ)) * 1000000000) :=
    pyRound_nonneg (mul_nonneg hf0 (by norm_num))
  have h1 : pyRound ((t - (⌊t⌋ : ℚ)) * 1000000000) ≤ 1000000000 := by
    refine pyRound_le_of_lt (n := 1000000000) ?_
    push_cast
    linarith
  have hdecomp : t * 1000000000 = ((⌊t⌋ * 1000000000 : ℤ) : ℚ) + (t - (⌊t⌋ : ℚ)) * 1000000000 := by
    push_cast
    ring
  have hsum : pyRound (t * 1000000000) =
      ⌊t⌋ * 1000000000 + pyRound ((t - (⌊t⌋ : ℚ)) * 1000000000) := by
    rw [hdecomp, pyRound_int_add_of_even _ (by omega)]
  split_ifs with hc
  · simp only
    exact ⟨by omega, by omega, by omega⟩
  · simp only
    exact ⟨h0, by omega, by omega⟩

/-- C1 (amended) witness at `t = 3/2`. -/
theorem timestampToSpec_range_witness :
    0 ≤ (timestampToSpec (3/2)).2 ∧ (timestampToSpec (3/2)).2 < 1000000000 ∧
    (timestampToSpec (3/2)).1 * 1000000000 + (timestampToSpec (3/2)).2 =
      pyRound ((3/2 : ℚ) * 1000000000) :=
  timestampToSpec_range (3/2) (by norm_num)

/-- C2: the Windows tick conversion does not satisfy
`_unix_to_windows_ticks(t) = round(t * 10^7) + 11644473600 * 10^7`: at
`t = 1/2` the code yields the epoch offset alone (the fractional second is
dropped, because `modf`'s return pair is bound in swapped order), while the
specified value is `5000000` ticks larger. -/
theorem unixToWindowsTicks_bug :
    unixToWindowsTicks (1/2) = 116444736000000000 ∧
    pyRound ((1/2 : ℚ) * 10000000) + 11644473600 * 10000000 = 116444736005000000 ∧
    unixToWindowsTicks (1/2) ≠ pyRound ((1/2 : ℚ) * 10000000) + 11644473600 * 10000000 := by
  have h1 : unixToWindowsTicks (1/2) = 116444736000000000 := by
    rw [unixToWindowsTicks_eq]
    rw [pyTrunc_eq_zero (by norm_num) (by norm_num)]
    norm_num [WINDOWS_TICK, EPOCH_DIFFERENCE_SECONDS]
  have h2 : pyRound ((1/2 : ℚ) * 10000000) = 5000000 := by
    have h : ((1:ℚ)/2) * 10000000 = ((5000000 : ℤ) : ℚ) := by norm_num
    rw [h, pyRound_intCast]
  refine ⟨h1, by rw [h2]; norm_num, by rw [h1, h2]; norm_num⟩

lemma linv_armed : LInv lArmed := by
  simp [LInv, lArmed]

lemma linv_step {s : LState} (h : LInv s) (e : LEvent) : LInv (lStep s e) := by
  obtain ⟨fut, cl, fc, rc, rr, pd⟩ := s
  obtain ⟨h1, h2, h3, h4, h5⟩ := h
  simp only [LInv] at *
  cases e <;> cases fut <;> cases cl <;>
    simp_all [lStep, lOnReady, lCloseFd] <;>
    split_ifs <;> simp_all

lemma linv_run : ∀ (events : List LEvent) (s : LState), LInv s → LInv (lRun s events)
  | [], _, hs => hs
  | e :: tl, s, hs => linv_run tl (lStep s e) (linv_step hs e)

lemma lOnReady_of_closed {s : LState} (hinv : LInv s) (hc : s.closed = true) :
    lOnReady s = s := by
  have hfut := hinv.2.2.1 hc
  unfold lOnReady lCloseFd
  rw [if_neg hfut, if_pos hc]

lemma tcOnTimer_of_closed {s : TCState} (hc : s.closed = true) : tcOnTimer s = s := by
  unfold tcOnTimer
  rw [if_pos hc]

lemma tcResolve_of_closed {s : TCState} (hc : s.closed = true) : tcResolve s = s := by
  unfold tcResolve
  rw [if_pos hc]

lemma tcCleanup_of_closed {s : TCState} (hc : s.closed = true) : tcCleanup s = (s, []) := by
  unfold tcCleanup
  rw [if_pos hc]

lemma tcinv_armed : TCInv tcArmed := by
  simp [TCInv, tcArmed]

lemma tcinv_step {s : TCState} (h : TCInv s) (e : TCEvent) : TCInv (tcStep s e) := by
  obtain ⟨cl, tid, reg, cc, dc, pc, fut, pr, pd⟩ := s
  obtain ⟨h1, h2, h3⟩ := h
  simp only [TCInv] at *
  cases e <;> cases cl <;>
    simp_all [tcStep, tcTimerFires, tcOnTimer, tcResolve, tcCleanup] <;>
    split_ifs <;> simp_all

lemma tcinv_run : ∀ (events : List TCEvent) (s : TCState), TCInv s → TCInv (tcRun s events)
  | [], _, hs => hs
  | e :: tl, s, hs => tcinv_run tl (tcStep s e) (tcinv_step hs e)

/-- C3: along every scheduler-thread event trace of an armed Linux wait
the descriptor is closed at most once and the future resolved at most
once; after the `closed` guard has fired, a further readiness event is a
no-op; once the future is terminal and every scheduled done-callback has
run, the descriptor has been closed exactly once; and a closed
`_TimerContext` ignores both its notification callback and its
scheduler-thread resolve step. -/
theorem terminal_event_noop (events : List LEvent) :
    (lRun lArmed events).fdCloseCount ≤ 1 ∧
    (lRun lArmed events).resolveCount ≤ 1 ∧
    ((lRun lArmed events).closed = true → lOnReady (lRun lArmed events) = lRun lArmed events) ∧
    ((lRun lArmed events).future ≠ FutureState.pending →
      (lRun lArmed events).pendingDoneCbs = 0 → (lRun lArmed events).fdCloseCount = 1) ∧
    (∀ c : TCState, c.closed = true → tcOnTimer c = c ∧ tcResolve c = c) := by
  have hinv := linv_run events lArmed linv_armed
  obtain ⟨h1, h2, h3, h4, h5⟩ := hinv
  refine ⟨?_, ?_, ?_, ?_, ?_⟩
  · rw [h1]
    split <;> omega
  · rw [h2]
    split <;> omega
  · intro hc
    exact lOnReady_of_closed ⟨h1, h2, h3, h4, h5⟩ hc
  · intro hfut hpd
    rcases h5 hfut with hp | hc
    · omega
    · rw [h1, if_pos hc]
  · intro c hc
    exact ⟨tcOnTimer_of_closed hc, tcResolve_of_closed hc⟩

/-- C3 witness: after the descriptor fires once, the wait is closed, a
duplicate readiness event changes nothing, the descriptor was closed
exactly once, and a concrete closed `_TimerContext` ignores its callback. -/
theorem terminal_event_noop_witness :
    lOnReady (lRun lArmed [LEvent.ready]) = lRun lArmed [LEvent.ready] ∧
    (lRun lArmed [LEvent.ready, LEvent.runDoneCb]).fdCloseCount = 1 ∧
    tcResolve (tcCleanup tcArmed).1 = (tcCleanup tcArmed).1 :=
  ⟨(terminal_event_noop [LEvent.ready]).2.2.1 (by decide),
   (terminal_event_noop [LEvent.ready, LEvent.runDoneCb]).2.2.2.1 (by decide) (by decide),
   ((terminal_event_noop [LEvent.ready]).2.2.2.2 (tcCleanup tcArmed).1 (by decide)).2⟩

lemma dCancelTimer_spec (s : DState) :
    (dCancelTimer s).1.releaseCount = s.releaseCount ∧
    (dCancelTimer s).1.timerPresent = s.timerPresent ∧
    (dCancelTimer s).1.pyRefsCleared = s.pyRefsCleared ∧
    ((dCancelTimer s).2 = [] ∨ (dCancelTimer s).2 = [DNative.sourceCancel]) := by
  unfold dCancelTimer
  split_ifs <;> simp

/-- C4: in the Darwin backend, requesting cancellation never releases
anything: `cancel_timer` performs at most the single native
`dispatch_source_cancel` call and leaves the timer reference, the release
count and the context's self-references untouched; neither the event
handler nor the future-done cleanup callback can emit a release; only the
cancel handler, invoked by the runtime itself, performs the
`dispatch_release` and drops the context. -/
theorem darwin_two_phase_release (s : DState) (v : Bool) :
    (dCancelTimer s).1.releaseCount = s.releaseCount ∧
    (dCancelTimer s).1.timerPresent = s.timerPresent ∧
    (dCancelTimer s).1.pyRefsCleared = s.pyRefsCleared ∧
    ((dCancelTimer s).2 = [] ∨ (dCancelTimer s).2 = [DNative.sourceCancel]) ∧
    DNative.releaseCall ∉ (dCancelTimer s).2 ∧
    DNative.releaseCall ∉ (dEventHandler v s).2 ∧
    DNative.releaseCall ∉ (dCleanupCb s).2 ∧
    (s.timerPresent = true →
      (dCancelHandler true s).2 = [DNative.releaseCall] ∧
      (dCancelHandler true s).1.releaseCount = s.releaseCount + 1 ∧
      (dCancelHandler true s).1.timerPresent = false) := by
  obtain ⟨hs1, hs2, hs3, hs4⟩ := dCancelTimer_spec s
  refine ⟨hs1, hs2, hs3, hs4, ?_, ?_, ?_, ?_⟩
  · rcases hs4 with h | h <;> simp [h]
  · unfold dEventHandler
    split_ifs with hv hf
    · simp
    · rcases hs4 with h | h <;> simp [h]
    · rcases (dCancelTimer_spec
        { s with pendingSetResults := s.pendingSetResults + 1 }).2.2.2 with h | h <;> simp [h]
  · unfold dCleanupCb
    rcases hs4 with h | h <;> simp [h]
  · intro ht
    unfold dCancelHandler dRelease
    simp [ht]

/-- C4 witness: at the armed Darwin state, a cancellation request releases
nothing, while the cancel handler performs exactly the release. -/
theorem darwin_two_phase_release_witness :
    (dCancelTimer darwinArmed).1.releaseCount = darwinArmed.releaseCount ∧
    DNative.releaseCall ∉ (dCancelTimer darwinArmed).2 ∧
    (dCancelHandler true darwinArmed).2 = [DNative.releaseCall] :=
  ⟨(darwin_two_phase_release darwinArmed true).1,
   (darwin_two_phase_release darwinArmed true).2.2.2.2.1,
   ((darwin_two_phase_release darwinArmed true).2.2.2.2.2.2.2 (by decide)).1⟩

/-- C7: `_TimerContext.cleanup` emits `setClosed` strictly before
`timerDelete`; a closed context ignores `_on_timer`, `_resolve` and a
repeated `cleanup`; and along every event trace of an armed context the
native timer is deleted at most once and the registry entry popped at most
once, with both happening exactly once as soon as the closed flag is set —
the closed flag is the single-transition gate. -/
theorem tc_cleanup_discipline (events : List TCEvent) :
    (∀ s : TCState, s.closed = false → s.timerIdSet = true →
      (tcCleanup s).2 = [TCAction.setClosed, TCAction.timerDelete, TCAction.registryPop]) ∧
    (∀ s : TCState, s.closed = true →
      tcOnTimer s = s ∧ tcResolve s = s ∧ tcCleanup s = (s, [])) ∧
    (tcRun tcArmed events).deleteCount ≤ 1 ∧
    (tcRun tcArmed events).popCount ≤ 1 ∧
    ((tcRun tcArmed events).closed = true →
      (tcRun tcArmed events).deleteCount = 1 ∧ (tcRun tcArmed events).popCount = 1) ∧
    ((tcRun tcArmed events).closed = false →
      (tcRun tcArmed events).deleteCount = 0 ∧ (tcRun tcArmed events).popCount = 0) := by
  have hinv := tcinv_run events tcArmed tcinv_armed
  obtain ⟨h1, h2, h3⟩ := hinv
  refine ⟨?_, ?_, ?_, ?_, ?_, ?_⟩
  · intro s hc ht
    unfold tcCleanup
    rw [if_neg (by simp [hc])]
    simp [ht]
  · intro s hc
    exact ⟨tcOnTimer_of_closed hc, tcResolve_of_closed hc, tcCleanup_of_closed hc⟩
  · cases hcl : (tcRun tcArmed events).closed
    · have := (h2 hcl).2.2.1
      omega
    · have := (h3 hcl).2.2.1
      omega
  · cases hcl : (tcRun tcArmed events).closed
    · have := (h2 hcl).2.2.2
      omega
    · have := (h3 hcl).2.2.2
      omega
  · intro hc
    exact ⟨(h3 hc).2.2.1, (h3 hc).2.2.2⟩
  · intro hc
    exact ⟨(h2 hc).2.2.1, (h2 hc).2.2.2⟩

/-- C7 witness: the armed context's cleanup emits the actions in order,
and a fire-then-resolve trace deletes the timer and pops the registry
entry exactly once. -/
theorem tc_cleanup_discipline_witness :
    (tcCleanup tcArmed).2 = [TCAction.setClosed, TCAction.timerDelete, TCAction.registryPop] ∧
    (tcRun tcArmed [TCEvent.timerFires, TCEvent.runResolve]).deleteCount = 1 ∧
    (tcRun tcArmed [TCEvent.timerFires, TCEvent.runResolve]).popCount = 1 :=
  ⟨(tc_cleanup_discipline []).1 tcArmed (by decide) (by decide),
   ((tc_cleanup_discipline [TCEvent.timerFires, TCEvent.runResolve]).2.2.2.2.1 (by decide)).1,
   ((tc_cleanup_discipline [TCEvent.timerFires, TCEvent.runResolve]).2.2.2.2.1 (by decide)).2⟩

/-- C9: a completion callback carrying an unknown token (or a null context
pointer) is swallowed: `_timer_callback` leaves the whole registry — hence
every other pending wait — untouched, and the Darwin event and cancel
handlers return without any state change or native call. -/
theorem unknown_token_swallowed (reg : List (ℕ × TCState)) (key : ℕ) (s : DState) :
    (tcLookup reg key = none → timerCallbackDispatch reg key = reg) ∧
    dEventHandler false s = (s, []) ∧
    dCancelHandler false s = (s, []) := by
  refine ⟨?_, rfl, rfl⟩
  intro h
  unfold timerCallbackDispatch
  rw [h]

/-- C9 witness: an empty registry swallows token 7, and a null context
pointer is ignored at the armed Darwin state. -/
theorem unknown_token_swallowed_witness :
    timerCallbackDispatch [] 7 = [] ∧
    dEventHandler false darwinArmed = (darwinArmed, []) :=
  ⟨(unknown_token_swallowed [] 7 darwinArmed).1 (by decide),
   (unknown_token_swallowed [] 7 darwinArmed).2.1⟩

/-- C5 counterexample: a naive datetime (no `tzinfo`) is not rejected: on
Linux with a fully capable loop the public `wait_until` returns the
awaitable (`ok`), raising no configuration error at all. -/
theorem naive_datetime_accepted :
    publicWaitUntil linuxChars { tzAware := false, ts := 0 } goodCfg = CallResult.ok := by
  decide

/-- C5 (amended): `wait_until` never consults timezone-awareness: its
outcome on a naive datetime is identical to its outcome on an aware
datetime with the same timestamp, on every platform and in every
environment — naive input is accepted, not rejected. -/
theorem waitUntil_ignores_tzinfo (platform : List Char) (t : ℚ) (cfg : EnvCfg) :
    publicWaitUntil platform { tzAware := false, ts := t } cfg =
      publicWaitUntil platform { tzAware := true, ts := t } cfg := by
  unfold publicWaitUntil
  cases h : selectImpl platform with
  | none => rfl
  | some b =>
    cases b
    · show (linuxWaitUntil _ cfg).result = (linuxWaitUntil _ cfg).result
      unfold linuxWaitUntil
      split_ifs <;> rfl
    · show (windowsWaitUntil _ cfg).result = (windowsWaitUntil _ cfg).result
      unfold windowsWaitUntil
      split_ifs <;> rfl

/-- C10: a Linux `wait_until` call whose loop lacks `add_reader` or
`remove_reader` raises `RuntimeError` and creates no timer descriptor. -/
theorem loop_without_reader_support (dt : PyDatetime) (cfg : EnvCfg)
    (h : cfg.hasAddReader = false ∨ cfg.hasRemoveReader = false) :
    (linuxWaitUntil dt cfg).result = CallResult.err PubError.runtimeErr ∧
    (linuxWaitUntil dt cfg).fdsCreated = 0 := by
  unfold linuxWaitUntil
  rw [if_pos h]
  exact ⟨rfl, rfl⟩

/-- C6: whenever creating or arming the native timer fails, `wait_until`
reports an error instead of returning a future, and every native resource
created within the call has been released when the error propagates: on
Linux every created descriptor is closed, on Windows every created handle
is closed, and in the `timer_create` backend the propagated context is
closed, its registry entry is gone, and `timer_delete` was called once per
created timer. -/
theorem setup_failure_reported_clean (dt : PyDatetime) (cfg : EnvCfg) :
    ((cfg.createFails = true ∨ cfg.armFails = true ∨ cfg.addReaderFails = true) →
      (linuxWaitUntil dt cfg).result ≠ CallResult.ok ∧
      (linuxWaitUntil dt cfg).fdsCreated = (linuxWaitUntil dt cfg).fdsClosed) ∧
    ((cfg.winCreateFails = true ∨ cfg.winSetFails = true) →
      (windowsWaitUntil dt cfg).result ≠ CallResult.ok ∧
      (windowsWaitUntil dt cfg).handlesCreated = (windowsWaitUntil dt cfg).handlesClosed) ∧
    ((cfg.tcCreateFails = true ∨ cfg.tcSettimeFails = true) →
      ∃ s, tcWaitUntil cfg = Except.error s ∧ s.closed = true ∧ s.inRegistry = false ∧
        s.deleteCount = s.createCount) := by
  refine ⟨?_, ?_, ?_⟩
  · intro h
    unfold linuxWaitUntil
    split_ifs <;> simp_all
  · intro h
    unfold windowsWaitUntil
    split_ifs <;> simp_all
  · intro h
    by_cases h1 : cfg.tcCreateFails = true
    · refine ⟨(tcCleanup tcNewContext).1, ?_, by decide, by decide, by decide⟩
      simp [tcWaitUntil, tcStart, h1]
    · have h2 : cfg.tcSettimeFails = true := by
        rcases h with h | h
        · exact absurd h h1
        · exact h
      refine ⟨(tcCleanup tcStartedContext).1, ?_, by decide, by decide, by decide⟩
      have hw : tcWaitUntil cfg =
          Except.error (tcCleanup (tcCleanup tcStartedContext).1).1 := by
        simp only [tcWaitUntil, tcStart]
        rw [if_neg h1, if_pos h2]
        rfl
      rw [hw, tcCleanup_of_closed (by decide)]

/-- C6 witness: an environment in which arming fails on every backend. -/
theorem setup_failure_reported_clean_witness :
    ((linuxWaitUntil { tzAware := true, ts := 0 } armFailCfg).result ≠ CallResult.ok ∧
      (linuxWaitUntil { tzAware := true, ts := 0 } armFailCfg).fdsCreated =
        (linuxWaitUntil { tzAware := true, ts := 0 } armFailCfg).fdsClosed) ∧
    ∃ s, tcWaitUntil armFailCfg = Except.error s ∧ s.closed = true ∧ s.inRegistry = false ∧
      s.deleteCount = s.createCount :=
  ⟨(setup_failure_reported_clean { tzAware := true, ts := 0 } armFailCfg).1 (by decide),
   (setup_failure_reported_clean { tzAware := true, ts := 0 } armFailCfg).2.2 (by decide)⟩

lemma linux_result_ne_notImplemented (dt : PyDatetime) (cfg : EnvCfg) :
    (linuxWaitUntil dt cfg).result ≠ CallResult.err PubError.notImplemented := by
  unfold linuxWaitUntil
  split_ifs <;> simp

lemma windows_result_ne_notImplemented (dt : PyDatetime) (cfg : EnvCfg) :
    (windowsWaitUntil dt cfg).result ≠ CallResult.err PubError.notImplemented := by
  unfold windowsWaitUntil
  split_ifs <;> simp

/-- C8 counterexample: macOS has a backend implementation in the
repository (`_darwin.py`), yet the selector leaves `_impl = None` on
`sys.platform = "darwin"`, so the public `wait_until` raises the
unsupported-platform error there even in a fully capable environment. -/
theorem darwin_backend_unselected :
    backendAvailable darwinChars = true ∧
    publicWaitUntil darwinChars { tzAware := true, ts := 0 } goodCfg =
      CallResult.err PubError.notImplemented := by
  constructor <;> decide

/-- C8 (amended): the selector, resolved once at import time, dispatches
`linux*` platforms to the timerfd backend and `win32*`/`cygwin*` platforms
to the waitable-timer backend; the unsupported-platform error is raised
exactly on every other platform — including macOS, for which the Darwin
and POSIX-timer backends exist in the repository but are never selected. -/
theorem selector_dispatch (platform : List Char) (dt : PyDatetime) (cfg : EnvCfg) :
    (publicWaitUntil platform dt cfg = CallResult.err PubError.notImplemented ↔
      selectImpl platform = none) ∧
    (selectImpl platform = none ↔
      strBegins linuxChars platform = false ∧
      strBegins win32Chars platform = false ∧
      strBegins cygwinChars platform = false) := by
  constructor
  · unfold publicWaitUntil
    cases h : selectImpl platform with
    | none => simp
    | some b =>
      cases b
      · simp [linux_result_ne_notImplemented dt cfg]
      · simp [windows_result_ne_notImplemented dt cfg]
  · unfold selectImpl
    split_ifs with h1 h2
    · simp [h1]
    · rw [Bool.or_eq_true] at h2
      rcases h2 with h | h <;> simp [h]
    · rw [Bool.or_eq_true] at h2
      push_neg at h2
      simp_all [Bool.not_eq_true]

/-- C10 witness: a loop without `add_reader`. -/
theorem loop_without_reader_support_witness :
    (linuxWaitUntil { tzAware := true, ts := 0 } noReaderCfg).result =
      CallResult.err PubError.runtimeErr ∧
    (linuxWaitUntil { tzAware := true, ts := 0 } noReaderCfg).fdsCreated = 0 :=
  loop_without_reader_support { tzAware := true, ts := 0 } noReaderCfg (by decide)

end SleepAbsolute
